import Mathlib

/-!
Verification of the request-translation contract of the `jira-proxy` server
(`src/api/server.js`).  The server is an Express application; every handler is a
pure translation from an inbound HTTP request to either an immediate response or
a single outbound upstream call, followed by a pure translation of the upstream
response.  We embed those translations as executable Lean functions over a
JSON value model and strings modelled as `List Char`.

Conventions of the embedding:
* JS strings are `List Char` (`Str`); string literals enter via `String.data`.
* JS values that can be `undefined` are `Option Json`; `none` is `undefined`.
* JS truthiness is `Json.truthy` / `truthyO`.
* `String.prototype.trim`, the regex classes `\s` and `\d`, and
  `String.prototype.toLowerCase` are modelled over their ASCII ranges (the
  source is only ever exercised with ASCII header names, URLs and time strings).
* A thrown-and-caught TypeError inside a handler (e.g. calling `.trim()` on a
  non-string) is the `Phase1.raise` outcome; the JSON parser of `response.json()`
  is an oracle field `UpstreamResponse.json` (parsing itself is a node-fetch
  builtin, not repository code).
-/

/-- JS strings, modelled as character lists. -/
abbrev Str := List Char

/-- ASCII whitespace recognised by the JS `\s` class and `String.prototype.trim`
(space, tab, line feed, carriage return, vertical tab, form feed).  The
source's regexes are only applied to ASCII input. -/
def jsWhite (c : Char) : Bool :=
  c == ' ' || c == '\t' || c == '\n' || c == '\r' || c == '\x0b' || c == '\x0c'

/-- `String.prototype.trim`: drop leading and trailing whitespace. -/
def jsTrim (s : Str) : Str :=
  ((s.dropWhile jsWhite).reverse.dropWhile jsWhite).reverse

/-- ASCII lowercasing, for the `i` flag of `/^https?:\/\//i`. -/
def lowerStr (s : Str) : Str := s.map Char.toLower

/-- The test `/^https?:\/\//i.test(url)` from `normalizeServerUrl`
(server.js line 35): a case-insensitive `http://` or `https://` prefix. -/
def hasHttpScheme (s : Str) : Bool :=
  "http://".data.isPrefixOf (lowerStr s) || "https://".data.isPrefixOf (lowerStr s)

/-- `url.replace(/\/+$/, "")` (server.js line 39): remove all trailing
slashes. -/
def dropTrailingSlashes (s : Str) : Str :=
  (s.reverse.dropWhile (· == '/')).reverse

/-- `req.originalUrl.replace(/^\/jira/, "")` (server.js line 472): remove one
leading `/jira` when present. -/
def stripJira (s : Str) : Str :=
  if "/jira".data.isPrefixOf s then s.drop 5 else s

/-- JSON values as parsed by `express.json()` and produced by handlers.
`undefined` is NOT a `Json` value; optional positions use `Option Json`. -/
inductive Json where
  | null : Json
  | bool (b : Bool) : Json
  | num (n : Int) : Json
  | str (s : Str) : Json
  | arr (elems : List Json) : Json
  | obj (fields : List (Str × Json)) : Json

/-- JS truthiness of a defined value (`null`, `false`, `0` and `""` are falsy;
arrays and objects are always truthy). -/
def Json.truthy : Json → Bool
  | .null => false
  | .bool b => b
  | .num n => n != 0
  | .str s => !s.isEmpty
  | .arr _ => true
  | .obj _ => true

/-- Truthiness of a possibly-`undefined` value. -/
def truthyO : Option Json → Bool
  | none => false
  | some v => v.truthy

/-- Truthiness of a JS value known to be `null`-or-string (here: the result of
`normalizeServerUrl`, or a `process.env` entry). -/
def truthyStrO : Option Str → Bool
  | none => false
  | some s => !s.isEmpty

/-- Property access `v.name` on a defined value: a field of an object,
`undefined` (`none`) otherwise. -/
def Json.getField : Json → Str → Option Json
  | .obj fields, name => List.lookup name fields
  | _, _ => none

/-- JS `a || b` on possibly-`undefined` values: `a` if truthy, else `b`. -/
def jsOr (a b : Option Json) : Option Json :=
  if truthyO a then a else b

mutual
/-- `String(v)` for a single array element inside `Array.prototype.toString`
(a `null` element renders as the empty string). -/
def jsOneToString : Json → Str
  | .null => []
  | .bool true => "true".data
  | .bool false => "false".data
  | .num n => (toString n).data
  | .str s => s
  | .arr elems => jsArrToString elems
  | .obj _ => "[object Object]".data

/-- `Array.prototype.toString`: elements joined by commas. -/
def jsArrToString : List Json → Str
  | [] => []
  | [x] => jsOneToString x
  | x :: y :: rest => jsOneToString x ++ ',' :: jsArrToString (y :: rest)
end

/-- The JS `String(v)` conversion applied by template literals and
`URLSearchParams` (top-level `null` renders as `"null"`). -/
def jsToString : Json → Str
  | .null => "null".data
  | .bool true => "true".data
  | .bool false => "false".data
  | .num n => (toString n).data
  | .str s => s
  | .arr elems => jsArrToString elems
  | .obj _ => "[object Object]".data

/-- `normalizeServerUrl` (server.js lines 31-40): `null` for a falsy or
all-whitespace input; otherwise trim, prepend `https://` when no
case-insensitive `http(s)://` prefix is present, and strip all trailing
slashes.  The JS function writes the trimmed string to a local `url`; the
embedding repeats the subterm instead. -/
def normalizeServerUrl (raw : Option Json) : Option Str :=
  match raw with
  | none => none
  | some v =>
    if !v.truthy then none
    else if (jsTrim (jsToString v)).isEmpty then none
    else if hasHttpScheme (jsTrim (jsToString v)) then
      some (dropTrailingSlashes (jsTrim (jsToString v)))
    else
      some (dropTrailingSlashes ("https://".data ++ jsTrim (jsToString v)))

/-- `normalizeServerUrl` applied to a plain string argument. -/
def normStr (s : Str) : Option Str := normalizeServerUrl (some (.str s))

/-- An inbound Express request as seen by the handlers.  `headers` holds the
header map with lower-cased names (Express lower-cases them); `query` holds
the parsed query-string parameters; `body` is the JSON body parsed by
`express.json()` (`none` when absent).  `originalUrl` is the full request
URL path (including any query string), `path` the path component used for
route matching. -/
structure Request where
  method : Str
  path : Str
  originalUrl : Str
  body : Option Json
  headers : List (Str × Str)
  query : List (Str × Str)

/-- `req.body?.name`: a body field, `undefined` when the body is absent, not
an object, or lacks the field. -/
def bodyField (req : Request) (name : Str) : Option Json :=
  match req.body with
  | some v => v.getField name
  | none => none

/-- `req.headers["name"]`: a header value as a JS string. -/
def headerField (req : Request) (name : Str) : Option Json :=
  (List.lookup name req.headers).map Json.str

/-- `req.query.name`: a query parameter as a JS string. -/
def queryField (req : Request) (name : Str) : Option Json :=
  (List.lookup name req.query).map Json.str

/-- The credential triple produced by `extractCredentials`: `serverUrl` has
been through `normalizeServerUrl` (so it is `null` or a string), the other
two are whatever value was selected. -/
structure Credentials where
  serverUrl : Option Str
  username : Option Json
  apiToken : Option Json

/-- `extractCredentials` (server.js lines 43-53): per field, the body value,
else (by JS `||` truthiness) the `x-jira-*` header, else the query
parameter; the selected server value is normalized. -/
def extractCredentials (req : Request) : Credentials :=
  { serverUrl := normalizeServerUrl
      (jsOr (bodyField req "serverUrl".data)
        (jsOr (headerField req "x-jira-server".data) (queryField req "serverUrl".data)))
  , username :=
      jsOr (bodyField req "username".data)
        (jsOr (headerField req "x-jira-user".data) (queryField req "username".data))
  , apiToken :=
      jsOr (bodyField req "apiToken".data)
        (jsOr (headerField req "x-jira-token".data) (queryField req "apiToken".data)) }

/-- The guard `!serverUrl || !username || !apiToken` applied to extracted
credentials. -/
def credsMissing (c : Credentials) : Bool :=
  !truthyStrO c.serverUrl || !truthyO c.username || !truthyO c.apiToken

/-- The same guard for the handlers that destructure the credentials directly
from `req.body` (add-worklog, get-worklogs: server.js lines 275 and 394). -/
def bodyCredsMissing (req : Request) : Bool :=
  !truthyO (bodyField req "serverUrl".data)
    || !truthyO (bodyField req "username".data)
    || !truthyO (bodyField req "apiToken".data)

/-- The `HR_JIRA_*` entries of `process.env` read by `getHRCredentials`
(environment variables are strings, or `undefined` when unset). -/
structure Env where
  hrServerUrl : Option Str
  hrUsername : Option Str
  hrApiToken : Option Str

/-- The guard `!serverUrl || !username || !apiToken` over `getHRCredentials`. -/
def hrCredsMissing (env : Env) : Bool :=
  !truthyStrO env.hrServerUrl || !truthyStrO env.hrUsername || !truthyStrO env.hrApiToken

/-- The fixed 400 body `{error: "Missing credentials", message: "Provide
serverUrl, username and apiToken"}` shared by every non-HR handler. -/
def missingCredsBody : Json :=
  .obj [("error".data, .str "Missing credentials".data),
        ("message".data, .str "Provide serverUrl, username and apiToken".data)]

/-- The 400 body of the HR handlers when the environment credentials are not
configured. -/
def hrMissingCredsBody : Json :=
  .obj [("error".data, .str "Missing HR credentials".data),
        ("message".data, .str "HR JIRA credentials not configured. Please set HR_JIRA_SERVER_URL, HR_JIRA_USERNAME, and HR_JIRA_API_TOKEN in environment variables.".data)]

/-- The 400 body of add-worklog for a missing issue key or time string. -/
def missingWorklogFieldsBody : Json :=
  .obj [("error".data, .str "Missing required fields".data),
        ("message".data, .str "Provide issueKey and timeSpent".data)]

/-- The 400 body of get-worklogs for a missing issue key. -/
def missingIssueKeyBody : Json :=
  .obj [("error".data, .str "Missing required fields".data),
        ("message".data, .str "Provide issueKey".data)]

/-- The 400 body of add-worklog for a time string rejected by the validator. -/
def invalidTimeFormatBody : Json :=
  .obj [("error".data, .str "Invalid time format".data),
        ("message".data, .str "Time format should be like: 2h 30m, 1d, 45m (w=week, d=day, h=hour, m=minute)".data)]

/-- One of the unit letters `[wdhm]`. -/
def isTimeUnit (c : Char) : Bool :=
  c == 'w' || c == 'd' || c == 'h' || c == 'm'

/-- Consume one `\d+[wdhm]` token from the front of the string.  The match is
deterministic: `\d+` must take the whole maximal digit run (shortening it
would put a digit where `[wdhm]` must match), after which exactly one unit
letter is required. -/
def consumeToken (s : Str) : Option Str :=
  if (s.takeWhile Char.isDigit).isEmpty then none
  else
    match s.drop (s.takeWhile Char.isDigit).length with
    | c :: rest => if isTimeUnit c then some rest else none
    | [] => none

/-- Consume one `(\d+[wdhm])?` group: the token when it is there, nothing
otherwise.  Skipping a present token can never rescue a match, because the
digit run it starts with can only ever be consumed by a `\d+[wdhm]` group
(the `\s*` separators cannot touch digits), and the groups are
interchangeable. -/
def consumeOptToken (s : Str) : Str :=
  (consumeToken s).getD s

/-- Consume a `\s*` separator (maximal, which is forced: whitespace can only
be matched by `\s*`). -/
def skipWs (s : Str) : Str :=
  s.dropWhile jsWhite

/-- `timeSpentRegex.test` for
`/^(\d+[wdhm])?\s*(\d+[wdhm])?\s*(\d+[wdhm])?\s*(\d+[wdhm])?$/`
(server.js line 296): four optional number-unit groups separated by optional
whitespace, anchored at both ends.  All alternatives of the regex are
deterministic (see `consumeToken` / `consumeOptToken`), so the test is the
straight-line consumption below. -/
def timeSpentRegexTest (s : Str) : Bool :=
  (consumeOptToken (skipWs (consumeOptToken (skipWs
    (consumeOptToken (skipWs (consumeOptToken s))))))).isEmpty

/-- The single outbound HTTP request a handler issues.  `query` holds
parameters passed through `URLSearchParams` (still unencoded); `body` the
payload that is `JSON.stringify`-ed.  Authorization, Accept and User-Agent
headers are fixed per handler and carry no claim content, so they are not
recorded. -/
structure UpstreamCall where
  method : Str
  url : Str
  query : List (Str × Str)
  body : Option Json

/-- What a handler does before (or instead of) contacting JIRA: answer the
client directly, issue its single upstream call, or throw a TypeError that
the surrounding `try`/`catch` turns into a fixed-shape 500. -/
inductive Phase1 where
  | respond (status : Nat) (body : Json)
  | callUpstream (call : UpstreamCall)
  | raise

/-- `POST /jira/test-connection` up to its upstream call (server.js
lines 71-100): extracted credentials or 400, then `GET {serverUrl}/rest/api/3/myself`. -/
def testConnectionPhase1 (req : Request) : Phase1 :=
  if credsMissing (extractCredentials req) then .respond 400 missingCredsBody
  else .callUpstream
    { method := "GET".data
    , url := ((extractCredentials req).serverUrl.getD []) ++ "/rest/api/3/myself".data
    , query := []
    , body := none }

/-- The default JQL for task search. -/
def defaultJql : Str :=
  "assignee = currentUser() AND status != Done ORDER BY updated DESC".data

/-- `req.body?.jql || "<default>"` (server.js lines 137-139). -/
def jqlOf (req : Request) : Json :=
  match bodyField req "jql".data with
  | some v => if v.truthy then v else .str defaultJql
  | none => .str defaultJql

/-- The fixed field list requested by the task search. -/
def searchFields : List Str :=
  ["summary".data, "status".data, "assignee".data, "priority".data,
   "project".data, "issuetype".data, "timetracking".data, "created".data,
   "updated".data, "description".data, "worklog".data]

/-- `POST /jira/get-tasks` up to its upstream call (server.js lines 134-185):
extracted credentials or 400, then a search request with the caller's JQL or
the default. -/
def getTasksPhase1 (req : Request) : Phase1 :=
  if credsMissing (extractCredentials req) then .respond 400 missingCredsBody
  else .callUpstream
    { method := "POST".data
    , url := ((extractCredentials req).serverUrl.getD []) ++ "/rest/api/3/search/jql".data
    , query := []
    , body := some (.obj [("jql".data, jqlOf req),
                          ("maxResults".data, .num 100),
                          ("fields".data, .arr (searchFields.map .str))]) }

/-- `POST /jira/get-projects` up to its upstream call (server.js
lines 211-240). -/
def getProjectsPhase1 (req : Request) : Phase1 :=
  if credsMissing (extractCredentials req) then .respond 400 missingCredsBody
  else .callUpstream
    { method := "GET".data
    , url := ((extractCredentials req).serverUrl.getD [])
               ++ "/rest/api/3/project/search?maxResults=100&expand=description,lead,url,projectKeys".data
    , query := []
    , body := none }

/-- The Atlassian Document Format envelope wrapped around a worklog comment
(server.js lines 325-339): one `doc`, one `paragraph`, one `text` run. -/
def commentEnvelope (text : Str) : Json :=
  .obj [("type".data, .str "doc".data),
        ("version".data, .num 1),
        ("content".data, .arr
          [.obj [("type".data, .str "paragraph".data),
                 ("content".data, .arr
                   [.obj [("type".data, .str "text".data),
                          ("text".data, .str text)]])]])]

/-- The worklog payload built at server.js lines 319-340: `{timeSpent}` plus,
when `comment && comment.trim()` holds, a `comment` field carrying the
trimmed text in the ADF envelope.  `none` is the TypeError thrown by
`.trim()` on a truthy non-string comment. -/
def worklogPayload (timeSpent : Json) (comment : Option Json) : Option Json :=
  match comment with
  | none => some (.obj [("timeSpent".data, timeSpent)])
  | some c =>
    if c.truthy then
      match c with
      | .str cs =>
        if (jsTrim cs).isEmpty then some (.obj [("timeSpent".data, timeSpent)])
        else some (.obj [("timeSpent".data, timeSpent),
                         ("comment".data, commentEnvelope (jsTrim cs))])
      | _ => none
    else some (.obj [("timeSpent".data, timeSpent)])

/-- `POST /jira/add-worklog` up to its upstream call (server.js
lines 273-353).  Credentials and the issue key / time string come from
`req.body` only; the server URL is used as given (not normalized); the time
string must pass `timeSpentRegexTest` after trimming. -/
def addWorklogPhase1 (req : Request) : Phase1 :=
  if bodyCredsMissing req then .respond 400 missingCredsBody
  else if !truthyO (bodyField req "issueKey".data)
          || !truthyO (bodyField req "timeSpent".data) then
    .respond 400 missingWorklogFieldsBody
  else
    match bodyField req "timeSpent".data with
    | some (.str ts) =>
      if !timeSpentRegexTest (jsTrim ts) then .respond 400 invalidTimeFormatBody
      else
        match worklogPayload (.str ts) (bodyField req "comment".data) with
        | some payload => .callUpstream
            { method := "POST".data
            , url := jsToString ((bodyField req "serverUrl".data).getD .null)
                       ++ "/rest/api/3/issue/".data
                       ++ jsToString ((bodyField req "issueKey".data).getD .null)
                       ++ "/worklog".data
            , query := []
            , body := some payload }
        | none => .raise
    | _ => .raise

/-- `POST /jira/get-worklogs` up to its upstream call (server.js
lines 392-431).  Credentials and the issue key come from `req.body` only. -/
def getWorklogsPhase1 (req : Request) : Phase1 :=
  if bodyCredsMissing req then .respond 400 missingCredsBody
  else if !truthyO (bodyField req "issueKey".data) then
    .respond 400 missingIssueKeyBody
  else .callUpstream
    { method := "GET".data
    , url := jsToString ((bodyField req "serverUrl".data).getD .null)
               ++ "/rest/api/3/issue/".data
               ++ jsToString ((bodyField req "issueKey".data).getD .null)
               ++ "/worklog".data
    , query := []
    , body := none }

/-- `req.body || {}` in the generic proxy. -/
def bodyOrEmpty (req : Request) : Json :=
  match req.body with
  | some v => if v.truthy then v else .obj []
  | none => .obj []

/-- The generic `/jira/*` passthrough up to its upstream call (server.js
lines 460-498): extracted credentials or 400; then the inbound method is
forwarded to `serverUrl` plus the inbound URL with its `/jira` prefix
stripped, with the JSON body forwarded except for GET and HEAD. -/
def genericProxyPhase1 (req : Request) : Phase1 :=
  if credsMissing (extractCredentials req) then .respond 400 missingCredsBody
  else .callUpstream
    { method := req.method
    , url := ((extractCredentials req).serverUrl.getD []) ++ stripJira req.originalUrl
    , query := []
    , body := if req.method == "GET".data || req.method == "HEAD".data then none
              else some (bodyOrEmpty req) }

/-- `POST /jira/hr/get-tasks` up to its upstream call (second server.js
revision, lines 693-739): environment credentials or 400, then a search via
`URLSearchParams`. -/
def hrGetTasksPhase1 (env : Env) (req : Request) : Phase1 :=
  if hrCredsMissing env then .respond 400 hrMissingCredsBody
  else .callUpstream
    { method := "GET".data
    , url := (env.hrServerUrl.getD []) ++ "/rest/api/3/search/jql".data
    , query := [("jql".data, jsToString (jqlOf req)),
                ("maxResults".data, "100".data),
                ("fields".data, "summary,status,assignee,priority,project,issuetype,timetracking,created,updated,description,worklog".data)]
    , body := none }

/-- `POST /jira/hr/get-projects` up to its upstream call (second server.js
revision, lines 834-866). -/
def hrGetProjectsPhase1 (env : Env) (_req : Request) : Phase1 :=
  if hrCredsMissing env then .respond 400 hrMissingCredsBody
  else .callUpstream
    { method := "GET".data
    , url := (env.hrServerUrl.getD [])
               ++ "/rest/api/3/project/search?maxResults=100&expand=description,lead,url,projectKeys".data
    , query := []
    , body := none }

/-- The five-field projection applied to one upstream project object
(server.js lines 254-260), keeping the `undefined`-ness of each access. -/
def projectionFields (p : Json) : List (Str × Option Json) :=
  [("id".data, p.getField "id".data),
   ("key".data, p.getField "key".data),
   ("name".data, p.getField "name".data),
   ("projectTypeKey".data, p.getField "projectTypeKey".data),
   ("simplified".data, p.getField "simplified".data)]

/-- One projected project as it leaves the server: building the JS object and
serialising it with `res.json` drops the fields whose accessed value was
`undefined`. -/
def projectProjection (p : Json) : Json :=
  .obj ((projectionFields p).filterMap fun nv => nv.2.map fun v => (nv.1, v))

/-- `data.values || []` (server.js line 254) as a list of project objects.  A
truthy non-array `values` makes `.map` throw in the source (caught as a 500)
and does not occur in a successful listing, so it is folded into the empty
case here. -/
def valuesList (data : Json) : List Json :=
  match data.getField "values".data with
  | some (.arr elems) => elems
  | _ => []

/-- The 200 body of `POST /jira/get-projects` built from a parsed upstream
body (server.js lines 251-263): `{projects: [...]}` with each project
projected to five fields. -/
def getProjectsSuccess (data : Json) : Json :=
  .obj [("projects".data, .arr ((valuesList data).map projectProjection))]

/-- The upstream response as the generic proxy consumes it.  `json` is the
outcome of `response.json()` on `text`: `Except.ok` the parsed value, or
`Except.error` carrying `String(err)` for the rejection (the parser itself
is a node-fetch builtin, not repository code). -/
structure UpstreamResponse where
  status : Nat
  contentTypeHeader : Option Str
  text : Str
  json : Except Str Json

/-- `String.prototype.includes`: the pattern occurs somewhere in the string. -/
def strIncludes (s pat : Str) : Bool :=
  match s with
  | [] => pat.isEmpty
  | _ :: rest => pat.isPrefixOf s || strIncludes rest pat

/-- `(response.headers.get("content-type") || "").includes("application/json")`
(server.js lines 500-501). -/
def ctIncludesJson (r : UpstreamResponse) : Bool :=
  strIncludes (r.contentTypeHeader.getD []) "application/json".data

/-- A response body sent back to the client: re-encoded JSON (`res.json`) or
raw text (`res.send`). -/
inductive ResBody where
  | json (j : Json)
  | text (t : Str)

/-- A complete client-facing response of the proxy. -/
structure ProxyResponse where
  status : Nat
  body : ResBody

/-- The response phase of the generic proxy (server.js lines 500-514): mirror
the upstream status with the re-encoded JSON body when the content type
includes `application/json`, mirror status and raw text otherwise; a JSON
parse rejection reaches the handler's `catch` and becomes a 500 with the
fixed `{error, message}` shape. -/
def genericProxyPhase2 (r : UpstreamResponse) : ProxyResponse :=
  if ctIncludesJson r then
    match r.json with
    | .ok j => { status := r.status, body := .json j }
    | .error e =>
      { status := 500
      , body := .json (.obj [("error".data, .str e),
                             ("message".data, .str "Failed to proxy request to JIRA".data)]) }
  else { status := r.status, body := .text r.text }

/-- The route a request is dispatched to. -/
inductive RouteTarget where
  | health
  | testConnection
  | getTasks
  | getProjects
  | addWorklog
  | getWorklogs
  | genericProxy
  | notFound
  deriving DecidableEq

/-- Express dispatch in registration order (server.js lines 62-515): the
specific `POST /jira/...` handlers are registered before the
`app.all(/^\/jira\/.*/)` catch-all, so the catch-all receives exactly the
`/jira/`-prefixed requests no specific route matched. -/
def route (req : Request) : RouteTarget :=
  if req.method = "GET".data ∧ req.path = "/health".data then .health
  else if req.method = "POST".data ∧ req.path = "/jira/test-connection".data then .testConnection
  else if req.method = "POST".data ∧ req.path = "/jira/get-tasks".data then .getTasks
  else if req.method = "POST".data ∧ req.path = "/jira/get-projects".data then .getProjects
  else if req.method = "POST".data ∧ req.path = "/jira/add-worklog".data then .addWorklog
  else if req.method = "POST".data ∧ req.path = "/jira/get-worklogs".data then .getWorklogs
  else if "/jira/".data.isPrefixOf req.path then .genericProxy
  else .notFound

/-- The paths of the specific `/jira` POST handlers. -/
def specificJiraPaths : List Str :=
  ["/jira/test-connection".data, "/jira/get-tasks".data, "/jira/get-projects".data,
   "/jira/add-worklog".data, "/jira/get-worklogs".data]

/-- A request carrying no credentials at all. -/
def emptyReq : Request :=
  { method := "POST".data
  , path := "/jira/test-connection".data
  , originalUrl := "/jira/test-connection".data
  , body := none
  , headers := []
  , query := [] }

/-- An environment with no HR credentials configured. -/
def emptyEnv : Env :=
  { hrServerUrl := none, hrUsername := none, hrApiToken := none }

/-- A `POST /jira/add-worklog` request whose credentials arrive only in the
`x-jira-*` headers; the body supplies the operation fields. -/
def headerCredWorklogReq : Request :=
  { method := "POST".data
  , path := "/jira/add-worklog".data
  , originalUrl := "/jira/add-worklog".data
  , body := some (.obj [("issueKey".data, .str "KEY-1".data),
                        ("timeSpent".data, .str "1h".data)])
  , headers := [("x-jira-server".data, "foo.atlassian.net".data),
                ("x-jira-user".data, "user@example.com".data),
                ("x-jira-token".data, "token123".data)]
  , query := [] }

/-- A fully body-supplied add-worklog request whose server URL has no scheme,
to exhibit that this handler does not normalize it. -/
def bareUrlWorklogReq : Request :=
  { method := "POST".data
  , path := "/jira/add-worklog".data
  , originalUrl := "/jira/add-worklog".data
  , body := some (.obj [("serverUrl".data, .str "foo.atlassian.net".data),
                        ("username".data, .str "user@example.com".data),
                        ("apiToken".data, .str "token123".data),
                        ("issueKey".data, .str "KEY-1".data),
                        ("timeSpent".data, .str "1h".data)])
  , headers := []
  , query := [] }

/-- An add-worklog request whose time string lists minutes before hours. -/
def outOfOrderWorklogReq : Request :=
  { method := "POST".data
  , path := "/jira/add-worklog".data
  , originalUrl := "/jira/add-worklog".data
  , body := some (.obj [("serverUrl".data, .str "https://foo.atlassian.net".data),
                        ("username".data, .str "user@example.com".data),
                        ("apiToken".data, .str "token123".data),
                        ("issueKey".data, .str "KEY-1".data),
                        ("timeSpent".data, .str "30m 2h".data)])
  , headers := []
  , query := [] }

/-- An add-worklog request with an invalid time string. -/
def invalidTimeWorklogReq : Request :=
  { method := "POST".data
  , path := "/jira/add-worklog".data
  , originalUrl := "/jira/add-worklog".data
  , body := some (.obj [("serverUrl".data, .str "https://foo.atlassian.net".data),
                        ("username".data, .str "user@example.com".data),
                        ("apiToken".data, .str "token123".data),
                        ("issueKey".data, .str "KEY-1".data),
                        ("timeSpent".data, .str "2x".data)])
  , headers := []
  , query := [] }

/-- A GET through the generic passthrough with header credentials. -/
def passthroughGetReq : Request :=
  { method := "GET".data
  , path := "/jira/rest/api/3/issue/KEY-1".data
  , originalUrl := "/jira/rest/api/3/issue/KEY-1".data
  , body := none
  , headers := [("x-jira-server".data, "https://foo.atlassian.net".data),
                ("x-jira-user".data, "user@example.com".data),
                ("x-jira-token".data, "token123".data)]
  , query := [] }

/-- A JSON 200 from the mock upstream. -/
def mockJsonResponse : UpstreamResponse :=
  { status := 200
  , contentTypeHeader := some "application/json; charset=utf-8".data
  , text := "\x7bkey:KEY-1\x7d".data
  , json := .ok (.obj [("key".data, .str "KEY-1".data),
                       ("id".data, .str "10001".data)]) }

/-- An upstream 200 that declares JSON but whose body does not parse. -/
def mockBadJsonResponse : UpstreamResponse :=
  { status := 200
  , contentTypeHeader := some "application/json".data
  , text := "not json".data
  , json := .error "SyntaxError: Unexpected token o in JSON at position 1".data }

/-- The spec's example upstream project-search body, with an extra field. -/
def exampleProjectsUpstream : Json :=
  .obj [("values".data, .arr
    [.obj [("id".data, .str "1".data),
           ("key".data, .str "AB".data),
           ("name".data, .str "Test".data),
           ("projectTypeKey".data, .str "software".data),
           ("simplified".data, .bool true),
           ("extraField".data, .str "x".data)]])]

/-- The spec's example response for the projection of that body. -/
def exampleProjectsResponse : Json :=
  .obj [("projects".data, .arr
    [.obj [("id".data, .str "1".data),
           ("key".data, .str "AB".data),
           ("name".data, .str "Test".data),
           ("projectTypeKey".data, .str "software".data),
           ("simplified".data, .bool true)]])]

/-- The single project object of the spec's example body. -/
def exampleProject : Json :=
  .obj [("id".data, .str "1".data),
        ("key".data, .str "AB".data),
        ("name".data, .str "Test".data),
        ("projectTypeKey".data, .str "software".data),
        ("simplified".data, .bool true),
        ("extraField".data, .str "x".data)]

/-- A request supplying different credentials in body, headers and query at
once. -/
def allTransportsReq : Request :=
  { method := "POST".data
  , path := "/jira/get-tasks".data
  , originalUrl := "/jira/get-tasks".data
  , body := some (.obj [("serverUrl".data, .str "body.atlassian.net".data),
                        ("username".data, .str "body-user".data),
                        ("apiToken".data, .str "body-token".data)])
  , headers := [("x-jira-server".data, "header.atlassian.net".data),
                ("x-jira-user".data, "header-user".data),
                ("x-jira-token".data, "header-token".data)]
  , query := [("serverUrl".data, "query.atlassian.net".data),
              ("username".data, "query-user".data),
              ("apiToken".data, "query-token".data)] }

/-- The same request without a body: headers and query compete. -/
def headerQueryReq : Request :=
  { method := "POST".data
  , path := "/jira/get-tasks".data
  , originalUrl := "/jira/get-tasks".data
  , body := none
  , headers := [("x-jira-server".data, "header.atlassian.net".data),
                ("x-jira-user".data, "header-user".data),
                ("x-jira-token".data, "header-token".data)]
  , query := [("serverUrl".data, "query.atlassian.net".data),
              ("username".data, "query-user".data),
              ("apiToken".data, "query-token".data)] }

/-- A request whose body carries the credential keys with empty-string
values while the headers carry real values. -/
def emptyStrBodyReq : Request :=
  { method := "POST".data
  , path := "/jira/get-tasks".data
  , originalUrl := "/jira/get-tasks".data
  , body := some (.obj [("serverUrl".data, .str []),
                        ("username".data, .str []),
                        ("apiToken".data, .str [])])
  , headers := [("x-jira-server".data, "header.atlassian.net".data),
                ("x-jira-user".data, "header-user".data),
                ("x-jira-token".data, "header-token".data)]
  , query := [] }

/-- A request with an empty-string body username, no matching header, and a
query fallback. -/
def emptyStrQueryReq : Request :=
  { method := "POST".data
  , path := "/jira/get-tasks".data
  , originalUrl := "/jira/get-tasks".data
  , body := some (.obj [("username".data, .str [])])
  , headers := []
  , query := [("username".data, "query-user".data)] }

theorem truthy_str {s : Str} (h : s ≠ []) : Json.truthy (.str s) = true := by
  cases s with
  | nil => exact absurd rfl h
  | cons c cs => rfl

theorem truthyO_str {s : Str} (h : s ≠ []) : truthyO (some (.str s)) = true := by
  cases s with
  | nil => exact absurd rfl h
  | cons c cs => rfl

theorem dropWhile_dropWhile_same (p : Char → Bool) (l : List Char) :
    (l.dropWhile p).dropWhile p = l.dropWhile p := by
  induction l with
  | nil => rfl
  | cons x xs ih =>
    by_cases h : p x = true
    · simp [List.dropWhile, h, ih]
    · simp [List.dropWhile, h]

theorem dropTrailingSlashes_idem (s : Str) :
    dropTrailingSlashes (dropTrailingSlashes s) = dropTrailingSlashes s := by
  unfold dropTrailingSlashes
  rw [List.reverse_reverse, dropWhile_dropWhile_same]

/-- C1: every `/jira/*` handler whose resolved credential triple has an
empty or absent member answers 400 with the fixed `{error, message}`
missing-credentials body and issues no upstream call; the handlers reading
`extractCredentials`, the two reading `req.body` directly, and the two HR
handlers reading the environment are covered separately because their
resolution differs. -/
theorem jira_missing_credentials_always_400 (env : Env) (req : Request) :
    (credsMissing (extractCredentials req) = true →
        testConnectionPhase1 req = .respond 400 missingCredsBody
      ∧ getTasksPhase1 req = .respond 400 missingCredsBody
      ∧ getProjectsPhase1 req = .respond 400 missingCredsBody
      ∧ genericProxyPhase1 req = .respond 400 missingCredsBody)
  ∧ (bodyCredsMissing req = true →
        addWorklogPhase1 req = .respond 400 missingCredsBody
      ∧ getWorklogsPhase1 req = .respond 400 missingCredsBody)
  ∧ (hrCredsMissing env = true →
        hrGetTasksPhase1 env req = .respond 400 hrMissingCredsBody
      ∧ hrGetProjectsPhase1 env req = .respond 400 hrMissingCredsBody) := by
  refine ⟨fun h => ⟨?_, ?_, ?_, ?_⟩, fun h => ⟨?_, ?_⟩, fun h => ⟨?_, ?_⟩⟩ <;>
    simp [testConnectionPhase1, getTasksPhase1, getProjectsPhase1, genericProxyPhase1,
          addWorklogPhase1, getWorklogsPhase1, hrGetTasksPhase1, hrGetProjectsPhase1, h]

theorem jira_missing_credentials_always_400_witness :
    credsMissing (extractCredentials emptyReq) = true
  ∧ testConnectionPhase1 emptyReq = .respond 400 missingCredsBody
  ∧ addWorklogPhase1 emptyReq = .respond 400 missingCredsBody
  ∧ hrGetTasksPhase1 emptyEnv emptyReq = .respond 400 hrMissingCredsBody := by
  have h := jira_missing_credentials_always_400 emptyEnv emptyReq
  exact ⟨by decide, (h.1 (by decide)).1, (h.2.1 (by decide)).1, (h.2.2 (by decide)).1⟩

/-- C2 counterexample: the claim says the validator rejects out-of-order
sequences such as "30m 2h", but `timeSpentRegexTest` accepts it and the
add-worklog handler forwards it upstream. -/
theorem timespent_out_of_order_accepted :
    timeSpentRegexTest "30m 2h".data = true
  ∧ addWorklogPhase1 outOfOrderWorklogReq = .callUpstream
      { method := "POST".data
      , url := "https://foo.atlassian.net/rest/api/3/issue/KEY-1/worklog".data
      , query := []
      , body := some (.obj [("timeSpent".data, .str "30m 2h".data)]) } :=
  ⟨by decide, rfl⟩

/-- C2 (amended): the time-spent validator accepts "2h 30m", "1d" and "45m",
rejects "2x" and "abc", but does NOT enforce unit order — "30m 2h" is also
accepted; and every add-worklog request whose (string) time value fails the
validator after trimming is answered 400 before any upstream call. -/
theorem timespent_validation_amended :
    timeSpentRegexTest "2h 30m".data = true
  ∧ timeSpentRegexTest "1d".data = true
  ∧ timeSpentRegexTest "45m".data = true
  ∧ timeSpentRegexTest "30m 2h".data = true
  ∧ timeSpentRegexTest "2x".data = false
  ∧ timeSpentRegexTest "abc".data = false
  ∧ (∀ (req : Request) (ts : Str),
       bodyCredsMissing req = false →
       truthyO (bodyField req "issueKey".data) = true →
       bodyField req "timeSpent".data = some (.str ts) →
       ts ≠ [] →
       timeSpentRegexTest (jsTrim ts) = false →
       addWorklogPhase1 req = .respond 400 invalidTimeFormatBody) := by
  refine ⟨by decide, by decide, by decide, by decide, by decide, by decide, ?_⟩
  intro req ts h1 h2 h3 h4 h5
  have h6 : truthyO (bodyField req "timeSpent".data) = true := by
    rw [h3]; exact truthyO_str h4
  simp [addWorklogPhase1, h1, h2, h3, h5, h6, truthyO_str h4]

theorem timespent_validation_amended_witness :
    addWorklogPhase1 invalidTimeWorklogReq = .respond 400 invalidTimeFormatBody :=
  timespent_validation_amended.2.2.2.2.2.2 invalidTimeWorklogReq "2x".data
    (by decide) (by decide) rfl (by decide) (by decide)

/-- C5 counterexample: `normalizeServerUrl` is not idempotent on all of its
outputs.  Normalizing "/" yields the bare scheme "https:", which
re-normalizes to "https://https:"; normalizing "a /" yields "https://a "
with a trailing space exposed by slash-stripping, which re-normalizes to
"https://a". -/
theorem normalize_server_url_not_idempotent :
    normStr "/".data = some "https:".data
  ∧ normStr "https:".data = some "https://https:".data
  ∧ normStr "https:".data ≠ some "https:".data
  ∧ normStr "a /".data = some "https://a ".data
  ∧ normStr "https://a ".data = some "https://a".data
  ∧ normStr "https://a ".data ≠ some "https://a ".data := by
  refine ⟨by decide, by decide, by decide, by decide, by decide, by decide⟩

/-- C5 (amended): `normalizeServerUrl` is idempotent on every output that
still starts with an `http(s)://` scheme and does not end in whitespace (all
outputs except the bare-scheme results of slash-only inputs and the
whitespace-trailing results exposed by slash-stripping); the two example
mappings of the claim hold as stated. -/
theorem normalize_server_url_idempotent_amended :
    (∀ s t : Str, normStr s = some t → hasHttpScheme t = true → jsTrim t = t →
       normStr t = some t)
  ∧ normStr "foo.atlassian.net".data = some "https://foo.atlassian.net".data
  ∧ normStr "https://foo.atlassian.net/".data = some "https://foo.atlassian.net".data := by
  refine ⟨?_, by decide, by decide⟩
  intro s t hns hscheme htrim
  have htne : t ≠ [] := by
    intro h; subst h; exact absurd hscheme (by decide)
  have hslash : dropTrailingSlashes t = t := by
    simp only [normStr, normalizeServerUrl, jsToString] at hns
    split_ifs at hns
    all_goals first
      | exact Option.noConfusion hns
      | (rw [← Option.some.inj hns]; exact dropTrailingSlashes_idem _)
  have h1 : Json.truthy (.str t) = true := by
    cases t with
    | nil => exact absurd rfl htne
    | cons c cs => rfl
  have h2 : (jsTrim t).isEmpty = false := by
    rw [htrim]
    cases t with
    | nil => exact absurd rfl htne
    | cons c cs => rfl
  simp [normStr, normalizeServerUrl, jsToString, h1, htrim, h2, hscheme, hslash, htne]

theorem normalize_server_url_idempotent_amended_witness :
    normStr "https://foo.atlassian.net".data = some "https://foo.atlassian.net".data :=
  normalize_server_url_idempotent_amended.1 "foo.atlassian.net".data
    "https://foo.atlassian.net".data (by decide) (by decide) (by decide)

/-- C3 counterexample: a `POST /jira/add-worklog` request whose credentials
arrive only in the `x-jira-*` headers is answered 400 Missing credentials,
even though `extractCredentials` (used by the other routes) resolves the
same headers; and a body-supplied server URL without a scheme is used as
given, not normalized. -/
theorem worklog_header_credentials_rejected :
    addWorklogPhase1 headerCredWorklogReq = .respond 400 missingCredsBody
  ∧ credsMissing (extractCredentials headerCredWorklogReq) = false
  ∧ addWorklogPhase1 bareUrlWorklogReq = .callUpstream
      { method := "POST".data
      , url := "foo.atlassian.net/rest/api/3/issue/KEY-1/worklog".data
      , query := []
      , body := some (.obj [("timeSpent".data, .str "1h".data)]) } :=
  ⟨rfl, by decide, rfl⟩

/-- C3 (amended): for the routes that resolve credentials through
`extractCredentials` — test-connection, get-tasks, get-projects and the
generic passthrough — body fields, `x-jira-*` headers and query parameters
are equivalent transports, each yielding the same credential triple with
the server URL normalized; `POST /jira/add-worklog` and
`POST /jira/get-worklogs` instead read credentials from the request body
only (their outcome depends on nothing but the body, and the server URL is
not normalized). -/
theorem credential_transport_amended :
    (∀ (req : Request) (s u t : Str), s ≠ [] → u ≠ [] → t ≠ [] →
       bodyField req "serverUrl".data = some (.str s) →
       bodyField req "username".data = some (.str u) →
       bodyField req "apiToken".data = some (.str t) →
       extractCredentials req = ⟨normStr s, some (.str u), some (.str t)⟩)
  ∧ (∀ (req : Request) (s u t : Str), s ≠ [] → u ≠ [] → t ≠ [] →
       req.body = none →
       List.lookup "x-jira-server".data req.headers = some s →
       List.lookup "x-jira-user".data req.headers = some u →
       List.lookup "x-jira-token".data req.headers = some t →
       extractCredentials req = ⟨normStr s, some (.str u), some (.str t)⟩)
  ∧ (∀ (req : Request) (s u t : Str), s ≠ [] → u ≠ [] → t ≠ [] →
       req.body = none →
       List.lookup "x-jira-server".data req.headers = none →
       List.lookup "x-jira-user".data req.headers = none →
       List.lookup "x-jira-token".data req.headers = none →
       List.lookup "serverUrl".data req.query = some s →
       List.lookup "username".data req.query = some u →
       List.lookup "apiToken".data req.query = some t →
       extractCredentials req = ⟨normStr s, some (.str u), some (.str t)⟩)
  ∧ (∀ r1 r2 : Request, r1.body = r2.body → addWorklogPhase1 r1 = addWorklogPhase1 r2)
  ∧ (∀ r1 r2 : Request, r1.body = r2.body → getWorklogsPhase1 r1 = getWorklogsPhase1 r2) := by
  refine ⟨?_, ?_, ?_, ?_, ?_⟩
  · intro req s u t hs hu ht hb1 hb2 hb3
    simp [extractCredentials, normStr, jsOr, hb1, hb2, hb3,
          truthyO_str hs, truthyO_str hu, truthyO_str ht]
  · intro req s u t hs hu ht hbody hh1 hh2 hh3
    simp [extractCredentials, normStr, jsOr, bodyField, headerField, hbody, hh1, hh2, hh3,
          truthyO, truthy_str hs, truthy_str hu, truthy_str ht]
  · intro req s u t hs hu ht hbody hh1 hh2 hh3 hq1 hq2 hq3
    simp [extractCredentials, normStr, jsOr, bodyField, headerField, queryField,
          hbody, hh1, hh2, hh3, hq1, hq2, hq3, truthyO,
          truthy_str hs, truthy_str hu, truthy_str ht]
  · intro r1 r2 h
    simp only [addWorklogPhase1, bodyCredsMissing, bodyField, h]
  · intro r1 r2 h
    simp only [getWorklogsPhase1, bodyCredsMissing, bodyField, h]

theorem credential_transport_amended_witness :
    extractCredentials passthroughGetReq =
      ⟨normStr "https://foo.atlassian.net".data,
       some (.str "user@example.com".data), some (.str "token123".data)⟩ :=
  credential_transport_amended.2.1 passthroughGetReq
    "https://foo.atlassian.net".data "user@example.com".data "token123".data
    (by decide) (by decide) (by decide) rfl rfl rfl rfl

/-- C4: a request whose path is `/jira/`-prefixed and matches no specific
handler is dispatched to the generic passthrough, which forwards the
inbound method to the normalized server URL concatenated with the inbound
URL stripped of its `/jira` prefix, omits the body exactly for GET and
HEAD, and mirrors the upstream status with the re-encoded JSON body when
the upstream content type is JSON and with the raw text otherwise. -/
theorem generic_passthrough_contract (req : Request) (r : UpstreamResponse)
    (hpre : "/jira/".data.isPrefixOf req.path = true)
    (hspec : req.method = "POST".data → req.path ∉ specificJiraPaths)
    (hcreds : credsMissing (extractCredentials req) = false) :
    route req = .genericProxy
  ∧ genericProxyPhase1 req = .callUpstream
      { method := req.method
      , url := ((extractCredentials req).serverUrl.getD []) ++ stripJira req.originalUrl
      , query := []
      , body := if req.method == "GET".data || req.method == "HEAD".data then none
                else some (bodyOrEmpty req) }
  ∧ (∀ j : Json, ctIncludesJson r = true → r.json = .ok j →
       genericProxyPhase2 r = { status := r.status, body := .json j })
  ∧ (ctIncludesJson r = false →
       genericProxyPhase2 r = { status := r.status, body := .text r.text }) := by
  have hhealth : ¬(req.method = "GET".data ∧ req.path = "/health".data) := by
    rintro ⟨-, hp⟩; rw [hp] at hpre; exact absurd hpre (by decide)
  have h2 : ¬(req.method = "POST".data ∧ req.path = "/jira/test-connection".data) := by
    rintro ⟨hm, hp⟩; exact hspec hm (by rw [hp]; decide)
  have h3 : ¬(req.method = "POST".data ∧ req.path = "/jira/get-tasks".data) := by
    rintro ⟨hm, hp⟩; exact hspec hm (by rw [hp]; decide)
  have h4 : ¬(req.method = "POST".data ∧ req.path = "/jira/get-projects".data) := by
    rintro ⟨hm, hp⟩; exact hspec hm (by rw [hp]; decide)
  have h5 : ¬(req.method = "POST".data ∧ req.path = "/jira/add-worklog".data) := by
    rintro ⟨hm, hp⟩; exact hspec hm (by rw [hp]; decide)
  have h6 : ¬(req.method = "POST".data ∧ req.path = "/jira/get-worklogs".data) := by
    rintro ⟨hm, hp⟩; exact hspec hm (by rw [hp]; decide)
  refine ⟨?_, ?_, ?_, ?_⟩
  · simp only [route]
    rw [if_neg hhealth, if_neg h2, if_neg h3, if_neg h4, if_neg h5, if_neg h6, if_pos hpre]
  · simp [genericProxyPhase1, hcreds]
  · intro j hct hok
    simp [genericProxyPhase2, hct, hok]
  · intro hct
    simp [genericProxyPhase2, hct]

theorem generic_passthrough_contract_witness :
    route passthroughGetReq = .genericProxy
  ∧ genericProxyPhase1 passthroughGetReq = .callUpstream
      { method := "GET".data
      , url := "https://foo.atlassian.net/rest/api/3/issue/KEY-1".data
      , query := []
      , body := none }
  ∧ genericProxyPhase2 mockJsonResponse =
      { status := 200
      , body := .json (.obj [("key".data, .str "KEY-1".data),
                             ("id".data, .str "10001".data)]) } := by
  have h := generic_passthrough_contract passthroughGetReq mockJsonResponse
    (by decide) (fun hm => absurd hm (by decide)) (by decide)
  exact ⟨h.1, h.2.1.trans rfl, (h.2.2.1 _ (by decide) rfl).trans rfl⟩

/-- C6: credential resolution follows body over header over query per field:
when body, header and query all carry a non-empty value for each credential
field, the body values win; when the body values are absent, the header
values win over the query values. -/
theorem credential_precedence_body_header_query :
    (∀ (req : Request) (bs bu bt hs hu ht qs qu qt : Str),
       bs ≠ [] → bu ≠ [] → bt ≠ [] →
       bodyField req "serverUrl".data = some (.str bs) →
       bodyField req "username".data = some (.str bu) →
       bodyField req "apiToken".data = some (.str bt) →
       List.lookup "x-jira-server".data req.headers = some hs →
       List.lookup "x-jira-user".data req.headers = some hu →
       List.lookup "x-jira-token".data req.headers = some ht →
       List.lookup "serverUrl".data req.query = some qs →
       List.lookup "username".data req.query = some qu →
       List.lookup "apiToken".data req.query = some qt →
       extractCredentials req = ⟨normStr bs, some (.str bu), some (.str bt)⟩)
  ∧ (∀ (req : Request) (hs hu ht qs qu qt : Str),
       hs ≠ [] → hu ≠ [] → ht ≠ [] →
       bodyField req "serverUrl".data = none →
       bodyField req "username".data = none →
       bodyField req "apiToken".data = none →
       List.lookup "x-jira-server".data req.headers = some hs →
       List.lookup "x-jira-user".data req.headers = some hu →
       List.lookup "x-jira-token".data req.headers = some ht →
       List.lookup "serverUrl".data req.query = some qs →
       List.lookup "username".data req.query = some qu →
       List.lookup "apiToken".data req.query = some qt →
       extractCredentials req = ⟨normStr hs, some (.str hu), some (.str ht)⟩) := by
  constructor
  · intro req bs bu bt hs hu ht qs qu qt hbs hbu hbt hb1 hb2 hb3 hh1 hh2 hh3 hq1 hq2 hq3
    simp [extractCredentials, normStr, jsOr, hb1, hb2, hb3,
          truthyO_str hbs, truthyO_str hbu, truthyO_str hbt]
  · intro req hs hu ht qs qu qt hhs hhu hht hb1 hb2 hb3 hh1 hh2 hh3 hq1 hq2 hq3
    simp [extractCredentials, normStr, jsOr, headerField, hb1, hb2, hb3, hh1, hh2, hh3,
          truthyO, truthy_str hhs, truthy_str hhu, truthy_str hht]

theorem credential_precedence_body_header_query_witness :
    extractCredentials allTransportsReq =
      ⟨normStr "body.atlassian.net".data,
       some (.str "body-user".data), some (.str "body-token".data)⟩
  ∧ extractCredentials headerQueryReq =
      ⟨normStr "header.atlassian.net".data,
       some (.str "header-user".data), some (.str "header-token".data)⟩ :=
  ⟨credential_precedence_body_header_query.1 allTransportsReq
     "body.atlassian.net".data "body-user".data "body-token".data
     "header.atlassian.net".data "header-user".data "header-token".data
     "query.atlassian.net".data "query-user".data "query-token".data
     (by decide) (by decide) (by decide) rfl rfl rfl rfl rfl rfl rfl rfl rfl,
   credential_precedence_body_header_query.2 headerQueryReq
     "header.atlassian.net".data "header-user".data "header-token".data
     "query.atlassian.net".data "query-user".data "query-token".data
     (by decide) (by decide) (by decide) rfl rfl rfl rfl rfl rfl rfl rfl rfl⟩

/-- C7: a successful project listing maps each upstream project object to
exactly the five-field projection (id, key, name, projectTypeKey,
simplified), dropping every other upstream field; the spec's example
upstream body yields exactly the spec's example response. -/
theorem project_listing_projection (p i k nm ty si : Json)
    (hi : p.getField "id".data = some i)
    (hk : p.getField "key".data = some k)
    (hn : p.getField "name".data = some nm)
    (ht : p.getField "projectTypeKey".data = some ty)
    (hs : p.getField "simplified".data = some si) :
    projectProjection p = .obj
      [("id".data, i), ("key".data, k), ("name".data, nm),
       ("projectTypeKey".data, ty), ("simplified".data, si)]
  ∧ getProjectsSuccess exampleProjectsUpstream = exampleProjectsResponse := by
  constructor
  · simp [projectProjection, projectionFields, hi, hk, hn, ht, hs]
  · rfl

theorem project_listing_projection_witness :
    projectProjection exampleProject = .obj
      [("id".data, .str "1".data), ("key".data, .str "AB".data),
       ("name".data, .str "Test".data), ("projectTypeKey".data, .str "software".data),
       ("simplified".data, .bool true)] :=
  (project_listing_projection exampleProject
    (.str "1".data) (.str "AB".data) (.str "Test".data)
    (.str "software".data) (.bool true) rfl rfl rfl rfl rfl).1

/-- C8: in add-worklog, a comment string that is non-empty after trimming is
attached to the payload as exactly the fixed rich-text document envelope
(one paragraph, one text run) around the trimmed text; an absent or
whitespace-only comment leaves the payload without a comment field. -/
theorem worklog_comment_envelope (ts : Json) (c : Str) :
    ((jsTrim c).isEmpty = false →
       worklogPayload ts (some (.str c)) =
         some (.obj [("timeSpent".data, ts),
                     ("comment".data, commentEnvelope (jsTrim c))]))
  ∧ ((jsTrim c).isEmpty = true →
       worklogPayload ts (some (.str c)) = some (.obj [("timeSpent".data, ts)]))
  ∧ worklogPayload ts none = some (.obj [("timeSpent".data, ts)]) := by
  refine ⟨?_, ?_, rfl⟩
  · intro h
    have hc : c ≠ [] := by
      intro he; subst he; exact absurd h (by decide)
    simp [worklogPayload, truthy_str hc, h]
  · intro h
    by_cases hc : c = []
    · subst hc; rfl
    · simp [worklogPayload, truthy_str hc, h]

theorem worklog_comment_envelope_witness :
    worklogPayload (.str "1h".data) (some (.str " hello ".data)) =
      some (.obj [("timeSpent".data, .str "1h".data),
                  ("comment".data, commentEnvelope "hello".data)])
  ∧ worklogPayload (.str "1h".data) (some (.str "   ".data)) =
      some (.obj [("timeSpent".data, .str "1h".data)]) :=
  ⟨((worklog_comment_envelope (.str "1h".data) " hello ".data).1 (by decide)).trans rfl,
   (worklog_comment_envelope (.str "1h".data) "   ".data).2.1 (by decide)⟩

/-- C9: a credential field present in the request body as the empty string
is skipped by the truthiness-based selection of `extractCredentials`, which
falls back to the matching header value and then to the query value. -/
theorem empty_body_credential_fallback :
    (∀ (req : Request) (hu : Str),
       bodyField req "username".data = some (.str []) →
       List.lookup "x-jira-user".data req.headers = some hu →
       hu ≠ [] →
       (extractCredentials req).username = some (.str hu))
  ∧ (∀ (req : Request) (hs : Str),
       bodyField req "serverUrl".data = some (.str []) →
       List.lookup "x-jira-server".data req.headers = some hs →
       hs ≠ [] →
       (extractCredentials req).serverUrl = normStr hs)
  ∧ (∀ (req : Request) (ht : Str),
       bodyField req "apiToken".data = some (.str []) →
       List.lookup "x-jira-token".data req.headers = some ht →
       ht ≠ [] →
       (extractCredentials req).apiToken = some (.str ht))
  ∧ (∀ (req : Request) (qu : Str),
       bodyField req "username".data = some (.str []) →
       List.lookup "x-jira-user".data req.headers = none →
       List.lookup "username".data req.query = some qu →
       (extractCredentials req).username = some (.str qu)) := by
  refine ⟨?_, ?_, ?_, ?_⟩
  · intro req hu hb hh hne
    simp [extractCredentials, jsOr, headerField, hb, hh, truthyO, Json.truthy,
          truthy_str hne, hne]
  · intro req hs hb hh hne
    simp [extractCredentials, normStr, jsOr, headerField, hb, hh, truthyO, Json.truthy,
          truthy_str hne, hne]
  · intro req ht hb hh hne
    simp [extractCredentials, jsOr, headerField, hb, hh, truthyO, Json.truthy,
          truthy_str hne, hne]
  · intro req qu hb hh hq
    simp [extractCredentials, jsOr, headerField, queryField, hb, hh, hq, truthyO, Json.truthy]

theorem empty_body_credential_fallback_witness :
    (extractCredentials emptyStrBodyReq).username = some (.str "header-user".data)
  ∧ (extractCredentials emptyStrQueryReq).username = some (.str "query-user".data) :=
  ⟨empty_body_credential_fallback.1 emptyStrBodyReq "header-user".data rfl rfl (by decide),
   empty_body_credential_fallback.2.2.2 emptyStrQueryReq "query-user".data rfl rfl rfl⟩

/-- C10: when the upstream response of the generic passthrough declares a
JSON content type but its body does not parse, the proxy does not mirror
the upstream status: the rejection of `response.json()` reaches the
handler's catch and the response is a 500 with the fixed `{error, message}`
shape. -/
theorem passthrough_json_parse_failure_500 (r : UpstreamResponse) (e : Str)
    (hct : ctIncludesJson r = true) (hj : r.json = .error e) :
    genericProxyPhase2 r =
      { status := 500
      , body := .json (.obj [("error".data, .str e),
                             ("message".data,
                              .str "Failed to proxy request to JIRA".data)]) } := by
  simp [genericProxyPhase2, hct, hj]

theorem passthrough_json_parse_failure_500_witness :
    mockBadJsonResponse.status = 200
  ∧ genericProxyPhase2 mockBadJsonResponse =
      { status := 500
      , body := .json (.obj
          [("error".data,
            .str "SyntaxError: Unexpected token o in JSON at position 1".data),
           ("message".data, .str "Failed to proxy request to JIRA".data)]) } :=
  ⟨rfl, passthrough_json_parse_failure_500 mockBadJsonResponse
          "SyntaxError: Unexpected token o in JSON at position 1".data (by decide) rfl⟩
